import Mathlib

/-!
Verification of the TEHTRIS EDR installer automation engine
(`ansible/res/tehtris_edr_installer.py`).

The script drives a Windows MSI installer wizard.  Its effectful parts
(win32 window enumeration, OCR over screenshots, mouse/keyboard actuation)
are embedded shallowly: the externally observable world is a `Frame`
(the OCR boxes of the current screen, the enumerated TEHTRIS windows with
their child controls, the success of pixel clicks, and the result the
colour/contour detector would give), and every operation returns its
Python return value together with a `Trace` of probe/actuation events.

String handling mirrors Python: `pyLower` is `str.lower`, `stripAmp`
is `text.replace('&', '')`, `pyIn` is the substring operator `in`.
-/

/-- Contiguous-sublist test on character lists. -/
def charsInfix (needle : List Char) : List Char → Bool
  | [] => needle.isEmpty
  | c :: cs => List.isPrefixOf needle (c :: cs) || charsInfix needle cs

/-- Python `needle in hay` substring test (on the underlying characters). -/
def pyIn (needle hay : String) : Bool :=
  charsInfix needle.data hay.data

/-- Python `s.lower()`. -/
def pyLower (s : String) : String :=
  String.mk (s.data.map Char.toLower)

/-- Python `s.replace('&', '')` as used for Windows accelerator markers. -/
def stripAmp (s : String) : String :=
  String.mk (s.data.filter (fun c => c ≠ '&'))

/-- Python `s.startswith(pre)`. -/
def pyStartsWith (s pre : String) : Bool :=
  List.isPrefixOf pre.data s.data

/-- `window_text.replace('&', '').lower()` — the normalisation applied to both
the query and the control text in `click_with_win32gui` (source lines 474-475). -/
def cleanText (s : String) : String :=
  pyLower (stripAmp s)

/-- A child control of a TEHTRIS window as seen through win32gui:
visibility, `GetWindowText`, `GetClassName`, and whether a `BM_CLICK`
posted to it succeeds (`PostMessage` can raise, source line 503). -/
structure Win32Control where
  visible : Bool
  text : String
  className : String
  clickOk : Bool
deriving DecidableEq

/-- One OCR text box of `pytesseract.image_to_data` (source lines 189-197). -/
structure OcrBox where
  text : String
  conf : Int
  left : Nat
  top : Nat
  width : Nat
  height : Nat
deriving DecidableEq

/-- Probe and actuation events emitted by the embedded operations. -/
inductive Event where
  | screenshotProbe
  | windowEnum
  | processProbe
  | clickXY (p : Nat × Nat)
  | postClick (c : Win32Control)
  | hotkey (k : String)
  | typeText (s : String)
  | fillField (i : Nat) (v : String)
  | processLaunch
deriving DecidableEq

abbrev Trace := List Event

/-- Module availability and mode flags of the script:
`PYAUTOGUI_AVAILABLE`, `self.dry_run`, and whether pywinauto managed to
connect to the installer window (`self.app` is not `None`). -/
structure Flags where
  pyautogui : Bool
  dryRun : Bool
  connected : Bool
deriving DecidableEq

/-- The externally observable screen/window state one step works against:
OCR boxes of a screenshot, the TEHTRIS-titled windows (each a list of its
child controls in enumeration order), whether a pixel click at a given
coordinate succeeds, and the position the colour/contour detector
`find_ui_element_by_color` (source lines 220-257, OpenCV HSV masking and
contour moments, kept abstract here) would return. -/
structure Frame where
  screen : List OcrBox
  windows : List (List Win32Control)
  clickAt : Nat × Nat → Bool
  colorDetect : Option (Nat × Nat)

/-- `take_screenshot` (source lines 154-170): returns `None` early when
pyautogui is unavailable or in dry-run, otherwise captures the screen. -/
def take_screenshot (fl : Flags) : Trace :=
  if fl.pyautogui && !fl.dryRun then [Event.screenshotProbe] else []

/-- `print_window_text` (source lines 328-413): pywinauto descendants walk
when connected, OCR pass when pyautogui is present, then a win32
`EnumWindows` walk.  Pure debugging output, so only probe events. -/
def print_window_text (fl : Flags) : Trace :=
  (if fl.connected then [Event.windowEnum] else []) ++
    (if fl.pyautogui then [Event.screenshotProbe] else []) ++ [Event.windowEnum]

/-- `find_text_on_screen` (source lines 172-204): guard on availability and
dry-run, screenshot, then return the centre of the first OCR box whose
lowered text contains the lowered query with confidence above
`0.8 * 100` (all call sites use the default confidence). -/
def find_text_on_screen (fl : Flags) (fr : Frame) (query : String) :
    Option (Nat × Nat) × Trace :=
  if !fl.pyautogui || fl.dryRun then (none, [])
  else
    match fr.screen.find? (fun b => pyIn (pyLower query) (pyLower b.text) && b.conf > 80) with
    | some b => (some (b.left + b.width / 2, b.top + b.height / 2), [Event.screenshotProbe])
    | none => (none, [Event.screenshotProbe])

/-- Modelled from the spec: `click_coordinates` is called throughout the
source (lines 281, 293, 655, 667) but its definition is not part of the
repository; per the spec's Actuator contract it moves the pointer,
synthesises a click at the pixel coordinate and reports whether the
action was performed. -/
def click_coordinates (fr : Frame) (p : Nat × Nat) : Bool × Trace :=
  (fr.clickAt p, [Event.clickXY p])

/-- The predicate of `find_button_callback` (source lines 462-487): a
visible control with non-empty text whose ampersand-stripped lowered text
contains the stripped lowered query, of class `Button`, and whose text
does not contain `not`. -/
def buttonMatches (q : String) (c : Win32Control) : Bool :=
  c.visible && (c.text != "") &&
    (pyIn (cleanText q) (cleanText c.text) && c.className == "Button" &&
      !(pyIn "not" (cleanText c.text)))

/-- The per-window search-and-click loop of `click_with_win32gui` (source
lines 456-509): in each TEHTRIS window find the first matching button;
post `BM_CLICK` to it; if posting raises, continue with the next window. -/
def win32ClickSearch (p : Win32Control → Bool) :
    List (List Win32Control) → Option Win32Control × Trace
  | [] => (none, [])
  | w :: ws =>
    match w.find? p with
    | some c =>
      if c.clickOk then (some c, [Event.postClick c])
      else
        let r := win32ClickSearch p ws
        (r.1, Event.postClick c :: r.2)
    | none => win32ClickSearch p ws

/-- `click_with_win32gui` (source lines 415-516): enumerate the TEHTRIS
windows, then search each for a matching button and click it. -/
def click_with_win32gui (windows : List (List Win32Control)) (q : String) :
    Option Win32Control × Trace :=
  let r := win32ClickSearch (buttonMatches q) windows
  (r.1, Event.windowEnum :: r.2)

/-- The ampersand variants tried by `smart_find_and_click` for one text
option (source lines 270-275). -/
def searchVariants (t : String) : List String :=
  if pyIn "&" t then [t, stripAmp t] else [t, "&" ++ t]

/-- Strategy 1 of `smart_find_and_click` (source lines 277-282): for each
search text, OCR-locate it and click the found position; a failed click
falls through to the next search text. -/
def ocrTry (fl : Flags) (fr : Frame) : List String → Option ((Nat × Nat) × String) × Trace
  | [] => (none, [])
  | st :: rest =>
    let f := find_text_on_screen fl fr st
    match f.1 with
    | some p =>
      let c := click_coordinates fr p
      if c.1 then (some (p, st), f.2 ++ c.2)
      else
        let r := ocrTry fl fr rest
        (r.1, f.2 ++ c.2 ++ r.2)
    | none =>
      let r := ocrTry fl fr rest
      (r.1, f.2 ++ r.2)

/-- The fallback-coordinates loop of `smart_find_and_click` (source lines
289-295): click each supplied literal position until one click succeeds. -/
def fallbackTry (fr : Frame) : List (Nat × Nat) → Option (Nat × Nat) × Trace
  | [] => (none, [])
  | p :: ps =>
    let c := click_coordinates fr p
    if c.1 then (some p, c.2)
    else
      let r := fallbackTry fr ps
      (r.1, c.2 ++ r.2)

/-- The keyboard-shortcut heuristic of `smart_find_and_click` (source lines
297-323), keyed off the element-type keyword. -/
def keyboardShortcut (elementType : String) : Option String :=
  let e := pyLower elementType
  if pyIn "next" e then some "alt+n"
  else if pyIn "accept" e then some "alt+a"
  else if pyIn "install" e then some "alt+i"
  else if pyIn "finish" e then some "alt+f"
  else none

/-- How a click request was satisfied, tagged by the strategy that
produced it. -/
inductive Outcome where
  | dryRun
  | native (c : Win32Control)
  | ocr (st : String) (p : Nat × Nat)
  | fallback (p : Nat × Nat)
  | keyboard (k : String)
deriving DecidableEq

/-- `smart_find_and_click` (source lines 259-326): dry-run short-circuit,
then OCR text search over the ampersand variants of every text option,
then the literal fallback coordinates, then the keyboard-shortcut
heuristic; `none` models returning `False`. -/
def smart_find_and_click (fl : Flags) (fr : Frame) (elementType : String)
    (textOptions : List String) (fallbacks : List (Nat × Nat)) :
    Option Outcome × Trace :=
  if fl.dryRun then (some Outcome.dryRun, [])
  else
    let r1 : Option ((Nat × Nat) × String) × Trace :=
      if fl.pyautogui then ocrTry fl fr (textOptions.flatMap searchVariants)
      else (none, [])
    match r1.1 with
    | some ps => (some (Outcome.ocr ps.2 ps.1), r1.2)
    | none =>
      let r2 := fallbackTry fr fallbacks
      match r2.1 with
      | some p => (some (Outcome.fallback p), r1.2 ++ r2.2)
      | none =>
        if fl.pyautogui then
          match keyboardShortcut elementType with
          | some k => (some (Outcome.keyboard k), r1.2 ++ r2.2 ++ [Event.hotkey k])
          | none => (none, r1.2 ++ r2.2)
        else (none, r1.2 ++ r2.2)

/-- The step-level resolution pattern shared by the wizard steps (for
example `handle_welcome_screen`, source lines 752-765): try
`click_with_win32gui` first, then fall back to `smart_find_and_click`. -/
def resolveClick (fl : Flags) (fr : Frame) (q elementType : String)
    (textOptions : List String) (fallbacks : List (Nat × Nat)) :
    Option Outcome × Trace :=
  let rw := click_with_win32gui fr.windows q
  match rw.1 with
  | some c => (some (Outcome.native c), rw.2)
  | none =>
    let rs := smart_find_and_click fl fr elementType textOptions fallbacks
    (rs.1, rw.2 ++ rs.2)

example : cleanText "&Next >" = "next >" := by decide
example : searchVariants "&Next >" = ["&Next >", "Next >"] := by decide
example : pyStartsWith "XPG_QAT" "XPG_" = true := by decide

/-- The input-control classes collected by `find_edit_callback`
(source line 565). -/
def editClasses : List String :=
  ["Edit", "TextBox", "RichEdit", "RichEdit20A", "RichEdit20W"]

/-- The edit-control enumeration of `fill_field_with_win32gui` (source
lines 560-572): the visible children of a window whose class is one of
the input-field classes, in enumeration order. -/
def editControls (w : List Win32Control) : List Win32Control :=
  w.filter (fun c => c.visible && editClasses.contains c.className)

/-- The positional field mapping of `fill_field_with_win32gui` (source
lines 575-583): fields are filled in the order server, tag, license. -/
def fieldIndex (label : String) : Nat :=
  if pyIn "server" (pyLower label) then 0
  else if pyIn "tag" (pyLower label) then 1
  else if pyIn "license" (pyLower label) then 2
  else 0

/-- The per-window loop of `fill_field_with_win32gui` (source lines
557-611): in the first TEHTRIS window whose enumerated edit controls
reach the computed index, focus-click the control, clear it, set the
value, and send Tab (folded into one `fillField` actuation event);
otherwise continue with the next window. -/
def fillSearch (i : Nat) (value : String) :
    List (List Win32Control) → Option Win32Control × Trace
  | [] => (none, [])
  | w :: ws =>
    match (editControls w).get? i with
    | some c => (some c, [Event.fillField i value])
    | none => fillSearch i value ws

/-- `fill_field_with_win32gui` (source lines 518-618): enumerate the
TEHTRIS windows, then fill positionally; `false` models returning
`False` with nothing filled. -/
def fill_field_with_win32gui (windows : List (List Win32Control))
    (label value : String) : Bool × Trace :=
  let r := fillSearch (fieldIndex label) value windows
  (r.1.isSome, Event.windowEnum :: r.2)

/-- `find_input_field_by_label` (source lines 620-640): locate the label
text by OCR and offset it by the default `(0, 25)` to the input field. -/
def find_input_field_by_label (fl : Flags) (fr : Frame) (label : String) :
    Option (Nat × Nat) × Trace :=
  if !fl.pyautogui || fl.dryRun then (none, [])
  else
    let r := find_text_on_screen fl fr label
    match r.1 with
    | some p => (some (p.1, p.2 + 25), r.2)
    | none => (none, r.2)

/-- Strategy 1 of `smart_fill_field` (source lines 650-661): find each
label, click the derived field position, then select-all and type. -/
def labelFillTry (fl : Flags) (fr : Frame) (value : String) :
    List String → Option (Nat × Nat) × Trace
  | [] => (none, [])
  | l :: ls =>
    let f := find_input_field_by_label fl fr l
    match f.1 with
    | some xy =>
      let c := click_coordinates fr xy
      if c.1 then
        if fl.pyautogui then
          (some xy, f.2 ++ c.2 ++ [Event.hotkey "ctrl+a", Event.typeText value])
        else
          let r := labelFillTry fl fr value ls
          (r.1, f.2 ++ c.2 ++ r.2)
      else
        let r := labelFillTry fl fr value ls
        (r.1, f.2 ++ c.2 ++ r.2)
    | none =>
      let r := labelFillTry fl fr value ls
      (r.1, f.2 ++ r.2)

/-- Strategy 2 of `smart_fill_field` (source lines 663-673): click each
fallback position, then select-all and type. -/
def fallbackFillTry (fl : Flags) (fr : Frame) (value : String) :
    List (Nat × Nat) → Option (Nat × Nat) × Trace
  | [] => (none, [])
  | p :: ps =>
    let c := click_coordinates fr p
    if c.1 then
      if fl.pyautogui then
        (some p, c.2 ++ [Event.hotkey "ctrl+a", Event.typeText value])
      else
        let r := fallbackFillTry fl fr value ps
        (r.1, c.2 ++ r.2)
    else
      let r := fallbackFillTry fl fr value ps
      (r.1, c.2 ++ r.2)

/-- `smart_fill_field` (source lines 642-676). -/
def smart_fill_field (fl : Flags) (fr : Frame) (value : String)
    (labels : List String) (fallbacks : List (Nat × Nat)) : Bool × Trace :=
  if fl.dryRun then (true, [])
  else
    let r1 := labelFillTry fl fr value labels
    match r1.1 with
    | some _ => (true, r1.2)
    | none =>
      let r2 := fallbackFillTry fl fr value fallbacks
      match r2.1 with
      | some _ => (true, r1.2 ++ r2.2)
      | none => (false, r1.2 ++ r2.2)

/-- The installation configuration held in `self.config`
(source lines 61-65). -/
structure InstallationConfig where
  server_address : String
  tag : String
  license_key : String
deriving DecidableEq

/-- The literal configuration of the source (lines 62-64). -/
def defaultConfig : InstallationConfig :=
  { server_address := "xpgapp16.tehtris.net"
    tag := "XPG_QAT"
    license_key := "MH83-2CDX-9DXQ-LG89-92FF" }

/-- `validate_prerequisites` (source lines 103-127): pywinauto must be
importable, the MSI file must exist, and the tag must start with `XPG_`;
the admin check only logs a warning. -/
def validate_prerequisites (pywinauto msiExists : Bool)
    (cfg : InstallationConfig) : Bool :=
  pywinauto && msiExists && pyStartsWith cfg.tag "XPG_"

/-- `launch_installer` (source lines 678-725): dry-run short-circuit,
otherwise minimise windows, screenshot, `msiexec` via `Popen`, screenshot,
and a pywinauto connect attempt whose failure still returns `True`. -/
def launch_installer (fl : Flags) (launchOk : Bool) : Bool × Trace :=
  if fl.dryRun then (true, [])
  else
    let tmin : Trace := if fl.pyautogui then [Event.hotkey "win+d"] else []
    if launchOk then
      (true, tmin ++ take_screenshot fl ++ [Event.processLaunch] ++ take_screenshot fl ++
        [Event.windowEnum] ++ (if fl.connected then print_window_text fl else []))
    else (false, tmin ++ take_screenshot fl ++ [Event.processLaunch])

/-- The text options used for every Next button
(source lines 759, 805, 874). -/
def nextTextOptions : List String :=
  ["&Next >", "Next >", "Next", "Suivant >", "Suivant"]

/-- `handle_welcome_screen` (source lines 738-765). -/
def handle_welcome_screen (fl : Flags) (fr : Frame) : Bool × Trace :=
  if fl.dryRun then (true, [])
  else
    let t0 := take_screenshot fl ++ print_window_text fl
    let r := resolveClick fl fr "Next" "Next button (welcome screen)" nextTextOptions []
    (r.1.isSome, t0 ++ r.2)

/-- The smart-finding fallback of `handle_license_agreement` (source lines
792-811): best-effort accept click, then the Next click decides. -/
def licenseFallback (fl : Flags) (fr : Frame) (pre : Trace) : Bool × Trace :=
  let r1 := smart_find_and_click fl fr "I accept radio button"
    ["I accept", "J'accepte", "accept", "accepte"] []
  let r2 := smart_find_and_click fl fr "Next button (license screen)" nextTextOptions []
  (r2.1.isSome, pre ++ r1.2 ++ r2.2)

/-- `handle_license_agreement` (source lines 767-811). -/
def handle_license_agreement (fl : Flags) (fr : Frame) : Bool × Trace :=
  if fl.dryRun then (true, [])
  else
    let t0 := take_screenshot fl ++ print_window_text fl
    let ra := click_with_win32gui fr.windows "accept"
    if ra.1.isSome then
      let rn := click_with_win32gui fr.windows "Next"
      if rn.1.isSome then (true, t0 ++ ra.2 ++ rn.2)
      else licenseFallback fl fr (t0 ++ ra.2 ++ rn.2)
    else licenseFallback fl fr (t0 ++ ra.2)

/-- The smart-filling fallback of `handle_activation_information` (source
lines 842-880): three best-effort smart fills, then the Next click. -/
def activationFallback (fl : Flags) (fr : Frame) (cfg : InstallationConfig)
    (pre : Trace) : Bool × Trace :=
  let s1 := smart_fill_field fl fr cfg.server_address
    ["Server address", "Adresse serveur", "Server", "Serveur"] []
  let s2 := smart_fill_field fl fr cfg.tag ["Tag", "Étiquette"] []
  let s3 := smart_fill_field fl fr cfg.license_key
    ["License key", "Clé de licence", "License", "Licence"] []
  let rn := smart_find_and_click fl fr "Next button (activation screen)" nextTextOptions []
  (rn.1.isSome, pre ++ s1.2 ++ s2.2 ++ s3.2 ++ rn.2)

/-- `handle_activation_information` (source lines 813-880): fill the
three fields via win32gui (all three attempts always made, `success &=`
does not short-circuit), click Next only when all succeeded, otherwise
fall back to smart filling. -/
def handle_activation_information (fl : Flags) (fr : Frame)
    (cfg : InstallationConfig) : Bool × Trace :=
  if fl.dryRun then (true, [])
  else
    let t0 := take_screenshot fl ++ print_window_text fl
    let r1 := fill_field_with_win32gui fr.windows "server" cfg.server_address
    let r2 := fill_field_with_win32gui fr.windows "tag" cfg.tag
    let r3 := fill_field_with_win32gui fr.windows "license" cfg.license_key
    let pre := t0 ++ r1.2 ++ r2.2 ++ r3.2
    if r1.1 && r2.1 && r3.1 then
      let rn := click_with_win32gui fr.windows "Next"
      if rn.1.isSome then (true, pre ++ rn.2)
      else activationFallback fl fr cfg (pre ++ rn.2)
    else activationFallback fl fr cfg pre

/-- `handle_installation` (source lines 882-906). -/
def handle_installation (fl : Flags) (fr : Frame) : Bool × Trace :=
  if fl.dryRun then (true, [])
  else
    let t0 := take_screenshot fl
    let rc := click_with_win32gui fr.windows "Install"
    if rc.1.isSome then (true, t0 ++ rc.2)
    else
      let rs := smart_find_and_click fl fr "Install button"
        ["Install", "Installer", "Install >"] []
      (rs.1.isSome, t0 ++ rc.2 ++ rs.2)

/-- The polling loop of `wait_for_completion` (source lines 921-947):
each 2-second iteration screenshots, then tries the Finish button and the
Close button via win32gui; the wall-clock budget of 180 seconds is
abstracted into the number of remaining iterations (the fuel). -/
def completionPoll (pyauto : Bool) (frames : Nat → List (List Win32Control)) :
    Nat → Nat → Option Win32Control × Trace
  | _, 0 => (none, [])
  | i, fuel + 1 =>
    let shot : Trace := if pyauto then [Event.screenshotProbe] else []
    let rf := click_with_win32gui (frames i) "Finish"
    match rf.1 with
    | some c => (some c, shot ++ rf.2)
    | none =>
      let rc := click_with_win32gui (frames i) "Close"
      match rc.1 with
      | some c => (some c, shot ++ rf.2 ++ rc.2)
      | none =>
        let r := completionPoll pyauto frames (i + 1) fuel
        (r.1, shot ++ rf.2 ++ rc.2 ++ r.2)

/-- `wait_for_completion` (source lines 908-964): poll for Finish/Close
within the budget; on exhaustion try Alt+F once and return `True` when
pyautogui is available, otherwise return `False`. -/
def wait_for_completion (fl : Flags) (frames : Nat → List (List Win32Control))
    (budget : Nat) : Bool × Trace :=
  if fl.dryRun then (true, [])
  else
    let r := completionPoll fl.pyautogui frames 0 budget
    match r.1 with
    | some _ => (true, r.2)
    | none =>
      if fl.pyautogui then (true, r.2 ++ [Event.hotkey "alt+f"])
      else (false, r.2)

/-- The possible outcomes of the post-install process check of
`verify_installation` (source lines 966-1038). -/
inductive VerifyOutcome where
  | psutilMissing
  | procIterError
  | agentFound
  | agentNotFound
  | otherError
deriving DecidableEq

/-- `verify_installation` (source lines 966-1038): every branch — psutil
missing, an error while iterating processes, an agent process found, no
agent process found, or any other exception — returns `True`. -/
def verify_installation (dryRun : Bool) (o : VerifyOutcome) : Bool × Trace :=
  if dryRun then (true, [])
  else
    match o with
    | VerifyOutcome.psutilMissing => (true, [])
    | VerifyOutcome.procIterError => (true, [Event.processProbe])
    | VerifyOutcome.agentFound => (true, [Event.processProbe])
    | VerifyOutcome.agentNotFound => (true, [Event.processProbe])
    | VerifyOutcome.otherError => (true, [Event.processProbe])

/-- `_retry_operation` (source lines 727-736), fuel-indexed: `attempt` is
the Python loop variable and the fuel is `max_retries - attempt`.  The
result is `none` when the loop body never runs (the Python function falls
off the loop and returns `None`), together with the number of calls made
to the wrapped operation. -/
def retryAux {α ε : Type} (op : Nat → Except ε α) :
    Nat → Nat → Option (Except ε α) × Nat
  | _, 0 => (none, 0)
  | attempt, remaining + 1 =>
    match op attempt with
    | Except.ok a => (some (Except.ok a), 1)
    | Except.error e =>
      if remaining = 0 then (some (Except.error e), 1)
      else
        let r := retryAux op (attempt + 1) remaining
        (r.1, r.2 + 1)

/-- `_retry_operation` entry point: `for attempt in range(max_retries)`. -/
def retry_operation {α ε : Type} (maxRetries : Nat) (op : Nat → Except ε α) :
    Option (Except ε α) × Nat :=
  retryAux op 0 maxRetries

/-- The whole environment a full `run_installation` works against: one
frame per wizard step, a stream of window states for the completion poll,
and the prerequisite/launch/verification facts. -/
structure RunEnv where
  fl : Flags
  pywinauto : Bool
  msiExists : Bool
  cfg : InstallationConfig
  launchOk : Bool
  welcome : Frame
  license : Frame
  activation : Frame
  install : Frame
  completionFrames : Nat → List (List Win32Control)
  completionBudget : Nat
  verify : VerifyOutcome

/-- `run_installation` (source lines 1048-1100): validate, then the seven
steps in order, each aborting the run on failure — except verification,
whose result only triggers a warning. -/
def run_installation (env : RunEnv) : Bool × Trace :=
  if validate_prerequisites env.pywinauto env.msiExists env.cfg then
    let r1 := launch_installer env.fl env.launchOk
    if r1.1 then
      let r2 := handle_welcome_screen env.fl env.welcome
      if r2.1 then
        let r3 := handle_license_agreement env.fl env.license
        if r3.1 then
          let r4 := handle_activation_information env.fl env.activation env.cfg
          if r4.1 then
            let r5 := handle_installation env.fl env.install
            if r5.1 then
              let r6 := wait_for_completion env.fl env.completionFrames env.completionBudget
              if r6.1 then
                let r7 := verify_installation env.fl.dryRun env.verify
                (true, r1.2 ++ r2.2 ++ r3.2 ++ r4.2 ++ r5.2 ++ r6.2 ++ r7.2)
              else (false, r1.2 ++ r2.2 ++ r3.2 ++ r4.2 ++ r5.2 ++ r6.2)
            else (false, r1.2 ++ r2.2 ++ r3.2 ++ r4.2 ++ r5.2)
          else (false, r1.2 ++ r2.2 ++ r3.2 ++ r4.2)
        else (false, r1.2 ++ r2.2 ++ r3.2)
      else (false, r1.2 ++ r2.2)
    else (false, r1.2)
  else (false, [])

/-- The five detection strategies the specification ranks. -/
inductive Strategy where
  | native
  | ocr
  | color
  | fallbackCoord
  | keyboard
deriving DecidableEq

/-- The strategy tag of a resolution outcome. -/
def outcomeStrategy : Outcome → Option Strategy
  | Outcome.dryRun => none
  | Outcome.native _ => some Strategy.native
  | Outcome.ocr _ _ => some Strategy.ocr
  | Outcome.fallback _ => some Strategy.fallbackCoord
  | Outcome.keyboard _ => some Strategy.keyboard

/-- Whether one OCR search text would be found on screen and the click on
its position would succeed. -/
def ocrHit (fl : Flags) (fr : Frame) (st : String) : Bool :=
  match (find_text_on_screen fl fr st).1 with
  | some p => fr.clickAt p
  | none => false

/-- Whether a strategy is capable of satisfying the given query against
the given frame. -/
def strategyCapable (fl : Flags) (fr : Frame) (q elementType : String)
    (textOptions : List String) (fallbacks : List (Nat × Nat)) : Strategy → Bool
  | Strategy.native => (click_with_win32gui fr.windows q).1.isSome
  | Strategy.ocr => fl.pyautogui && (textOptions.flatMap searchVariants).any (ocrHit fl fr)
  | Strategy.color => fr.colorDetect.isSome
  | Strategy.fallbackCoord => fallbacks.any fr.clickAt
  | Strategy.keyboard => fl.pyautogui && (keyboardShortcut elementType).isSome

/-- The priority order claimed by the specification. -/
def claimOrder : List Strategy :=
  [Strategy.native, Strategy.ocr, Strategy.color, Strategy.keyboard]

/-- The priority order the code actually implements. -/
def codeOrder : List Strategy :=
  [Strategy.native, Strategy.ocr, Strategy.fallbackCoord, Strategy.keyboard]

/-- Actuation events, as opposed to pure probes. -/
def isActuation : Event → Bool
  | Event.clickXY _ => true
  | Event.postClick _ => true
  | Event.hotkey _ => true
  | Event.typeText _ => true
  | Event.fillField _ _ => true
  | Event.processLaunch => true
  | Event.screenshotProbe => false
  | Event.windowEnum => false
  | Event.processProbe => false

/-- The actuation subtrace. -/
def acts (t : Trace) : Trace :=
  t.filter isActuation

/-! ### Concrete fixtures used by witnesses and counterexamples -/

/-- A visible, clickable `&Next >` button control. -/
def nextButtonCtl : Win32Control :=
  { visible := true, text := "&Next >", className := "Button", clickOk := true }

/-- A frame with nothing on screen, no windows, and failing clicks. -/
def emptyFrame : Frame :=
  { screen := [], windows := [], clickAt := fun _ => false, colorDetect := none }

/-- A frame whose screen shows both a `Next` and a `&Next` OCR box at
different positions, with all clicks succeeding. -/
def ampFrame : Frame :=
  { screen := [{ text := "Next", conf := 90, left := 0, top := 0, width := 20, height := 20 },
               { text := "&Next", conf := 90, left := 100, top := 0, width := 20, height := 20 }],
    windows := [], clickAt := fun _ => true, colorDetect := none }

/-- A frame where only the colour/contour detector would find anything. -/
def colorOnlyFrame : Frame :=
  { screen := [], windows := [], clickAt := fun _ => false, colorDetect := some (5, 5) }

/-- A frame whose windows contain a clickable Next button. -/
def nativeFrame : Frame :=
  { screen := [], windows := [[nextButtonCtl]], clickAt := fun _ => false,
    colorDetect := none }

/-- An edit input control. -/
def editCtl : Win32Control :=
  { visible := true, text := "", className := "Edit", clickOk := true }

/-- A frame with one TEHTRIS window holding three edit controls and a
Next button. -/
def activationFrame : Frame :=
  { screen := [], windows := [[editCtl, editCtl, editCtl, nextButtonCtl]],
    clickAt := fun _ => false, colorDetect := none }

/-- A dry-run environment whose MSI file is missing. -/
def dryEnvNoMsi : RunEnv :=
  { fl := { pyautogui := false, dryRun := true, connected := false },
    pywinauto := true, msiExists := false, cfg := defaultConfig, launchOk := true,
    welcome := emptyFrame, license := emptyFrame, activation := emptyFrame,
    install := emptyFrame, completionFrames := fun _ => [], completionBudget := 0,
    verify := VerifyOutcome.agentNotFound }

/-- A dry-run environment whose prerequisites validate. -/
def dryEnvOk : RunEnv :=
  { fl := { pyautogui := false, dryRun := true, connected := false },
    pywinauto := true, msiExists := true, cfg := defaultConfig, launchOk := true,
    welcome := emptyFrame, license := emptyFrame, activation := emptyFrame,
    install := emptyFrame, completionFrames := fun _ => [], completionBudget := 0,
    verify := VerifyOutcome.agentNotFound }

/-! ## General lemmas about the locator loops -/

lemma win32ClickSearch_prop {p : Win32Control → Bool} :
    ∀ (ws : List (List Win32Control)) (c : Win32Control),
      (win32ClickSearch p ws).1 = some c → p c = true := by
  intro ws
  induction ws with
  | nil => intro c h; simp [win32ClickSearch] at h
  | cons w rest ih =>
    intro c h
    simp only [win32ClickSearch] at h
    cases hf : w.find? p with
    | none => rw [hf] at h; exact ih c h
    | some d =>
      rw [hf] at h
      by_cases hc : d.clickOk = true
      · simp [hc] at h
        exact h ▸ List.find?_some hf
      · simp [hc] at h
        exact ih c h

lemma win32ClickSearch_events {p : Win32Control → Bool} :
    ∀ (ws : List (List Win32Control)), ∀ e ∈ (win32ClickSearch p ws).2,
      ∃ d, e = Event.postClick d := by
  intro ws
  induction ws with
  | nil => intro e he; simp [win32ClickSearch] at he
  | cons w rest ih =>
    intro e he
    simp only [win32ClickSearch] at he
    cases hf : w.find? p with
    | none => rw [hf] at he; exact ih e he
    | some d =>
      rw [hf] at he
      by_cases hc : d.clickOk = true
      · simp [hc] at he
        exact ⟨d, he⟩
      · simp [hc] at he
        rcases he with he | he
        · exact ⟨d, he⟩
        · exact ih e he

lemma buttonMatches_spec {q : String} {c : Win32Control}
    (h : buttonMatches q c = true) :
    c.className = "Button" ∧ c.visible = true ∧
      pyIn (cleanText q) (cleanText c.text) = true ∧
      pyIn "not" (cleanText c.text) = false := by
  simp only [buttonMatches, Bool.and_eq_true, bne_iff_ne, beq_iff_eq,
    Bool.not_eq_true'] at h
  exact ⟨h.2.1.2, h.1.1, h.2.1.1, h.2.2⟩

/-- C9: for every query string, the native-handle click strategy
(`click_with_win32gui`) clicks only a control of class `Button` whose
ampersand-stripped, lowercased text contains the ampersand-stripped,
lowercased query as a substring and does not contain the substring
`not`; in particular, a button labeled `Do not accept` is never clicked
when the query is `accept`. -/
theorem claim_C9 :
    (∀ (windows : List (List Win32Control)) (q : String) (c : Win32Control),
      (click_with_win32gui windows q).1 = some c →
        c.className = "Button" ∧ c.visible = true ∧
        pyIn (cleanText q) (cleanText c.text) = true ∧
        pyIn "not" (cleanText c.text) = false) ∧
    (click_with_win32gui
      [[{ visible := true, text := "Do not accept", className := "Button",
          clickOk := true }]] "accept").1 = none := by
  constructor
  · intro windows q c h
    simp only [click_with_win32gui] at h
    exact buttonMatches_spec (win32ClickSearch_prop windows c h)
  · decide

theorem claim_C9_witness :
    nextButtonCtl.className = "Button" ∧ nextButtonCtl.visible = true ∧
      pyIn (cleanText "Next") (cleanText nextButtonCtl.text) = true ∧
      pyIn "not" (cleanText nextButtonCtl.text) = false :=
  claim_C9.1 [[nextButtonCtl]] "Next" nextButtonCtl (by decide)

/-! ## Lemmas about the positional field filling -/

lemma fillSearch_pos {i : Nat} {value : String} :
    ∀ (ws : List (List Win32Control)) (c : Win32Control),
      (fillSearch i value ws).1 = some c →
      ∃ w ∈ ws, (editControls w).get? i = some c := by
  intro ws
  induction ws with
  | nil => intro c h; simp [fillSearch] at h
  | cons w rest ih =>
    intro c h
    simp only [fillSearch] at h
    cases hg : (editControls w).get? i with
    | none =>
      rw [hg] at h
      obtain ⟨w2, hw2, hc⟩ := ih c h
      exact ⟨w2, List.mem_cons_of_mem _ hw2, hc⟩
    | some d =>
      rw [hg] at h
      simp at h
      exact ⟨w, List.mem_cons_self _ _, h ▸ hg⟩

lemma fillSearch_none {i : Nat} {value : String} :
    ∀ (ws : List (List Win32Control)),
      (∀ w ∈ ws, (editControls w).get? i = none) →
      fillSearch i value ws = (none, []) := by
  intro ws
  induction ws with
  | nil => intro _; rfl
  | cons w rest ih =>
    intro h
    simp only [fillSearch]
    rw [h w (List.mem_cons_self _ _)]
    exact ih (fun w2 hw2 => h w2 (List.mem_cons_of_mem _ hw2))

lemma fillSearch_trace {i : Nat} {value : String} :
    ∀ (ws : List (List Win32Control)) (c : Win32Control),
      (fillSearch i value ws).1 = some c →
      (fillSearch i value ws).2 = [Event.fillField i value] := by
  intro ws
  induction ws with
  | nil => intro c h; simp [fillSearch] at h
  | cons w rest ih =>
    intro c h
    simp only [fillSearch] at h ⊢
    cases hg : (editControls w).get? i with
    | none => rw [hg] at h; exact ih c h
    | some d => rfl

/-- C10: `fill_field_with_win32gui` selects its target purely by position
among the enumerated edit controls, never by comparing the field label
against on-screen text: a label containing `server` maps to index 0,
`tag` (without `server`) to index 1, `license` (without the former two)
to index 2, and every other label defaults to index 0; if the computed
index is out of range for the enumerated controls, the function returns
`False` without filling anything. -/
theorem claim_C10 :
    (∀ label : String,
      (pyIn "server" (pyLower label) = true → fieldIndex label = 0) ∧
      (pyIn "server" (pyLower label) = false → pyIn "tag" (pyLower label) = true →
        fieldIndex label = 1) ∧
      (pyIn "server" (pyLower label) = false → pyIn "tag" (pyLower label) = false →
        pyIn "license" (pyLower label) = true → fieldIndex label = 2) ∧
      (pyIn "server" (pyLower label) = false → pyIn "tag" (pyLower label) = false →
        pyIn "license" (pyLower label) = false → fieldIndex label = 0)) ∧
    (∀ (windows : List (List Win32Control)) (label value : String) (c : Win32Control),
      (fillSearch (fieldIndex label) value windows).1 = some c →
      ∃ w ∈ windows, (editControls w).get? (fieldIndex label) = some c) ∧
    (∀ (windows : List (List Win32Control)) (label value : String),
      (∀ w ∈ windows, (editControls w).get? (fieldIndex label) = none) →
      fill_field_with_win32gui windows label value = (false, [Event.windowEnum])) := by
  refine ⟨?_, ?_, ?_⟩
  · intro label
    refine ⟨?_, ?_, ?_, ?_⟩ <;> intros <;> simp_all [fieldIndex]
  · intro windows label value c h
    exact fillSearch_pos windows c h
  · intro windows label value h
    simp [fill_field_with_win32gui, fillSearch_none windows h]

theorem claim_C10_witness :
    fieldIndex "Server address" = 0 ∧ fieldIndex "tag" = 1 ∧
      fieldIndex "license" = 2 ∧ fieldIndex "hostname" = 0 ∧
      fill_field_with_win32gui
        [[{ visible := true, text := "", className := "Edit", clickOk := true }]]
        "license" "MH83" = (false, [Event.windowEnum]) := by
  refine ⟨(claim_C10.1 "Server address").1 (by decide),
    ((claim_C10.1 "tag").2.1 (by decide) (by decide)),
    ((claim_C10.1 "license").2.2.1 (by decide) (by decide) (by decide)),
    ((claim_C10.1 "hostname").2.2.2 (by decide) (by decide) (by decide)),
    claim_C10.2.2 _ "license" "MH83" ?_⟩
  intro w hw
  simp at hw
  subst hw
  decide

/-! ## Lemmas about the retry loop -/

lemma retryAux_calls_le {α ε : Type} (op : Nat → Except ε α) :
    ∀ (remaining attempt : Nat), (retryAux op attempt remaining).2 ≤ remaining := by
  intro remaining
  induction remaining with
  | zero => intro attempt; simp [retryAux]
  | succ m ih =>
    intro attempt
    simp only [retryAux]
    cases op attempt with
    | ok a => simp
    | error e =>
      by_cases hm : m = 0
      · simp [hm]
      · simp only [if_neg hm]
        exact Nat.succ_le_succ (ih (attempt + 1))

lemma retryAux_calls_pos {α ε : Type} (op : Nat → Except ε α)
    (m attempt : Nat) : 1 ≤ (retryAux op attempt (m + 1)).2 := by
  simp only [retryAux]
  cases op attempt with
  | ok a => simp
  | error e =>
    by_cases hm : m = 0
    · simp [hm]
    · simp only [if_neg hm]
      exact Nat.le_add_left 1 _

lemma retryAux_all_error {α ε : Type} (op : Nat → Except ε α) :
    ∀ (m attempt : Nat),
      (∀ i, attempt ≤ i → i < attempt + (m + 1) → ∃ e, op i = Except.error e) →
      (retryAux op attempt (m + 1)).1 = some (op (attempt + m)) := by
  intro m
  induction m with
  | zero =>
    intro attempt h
    obtain ⟨e, he⟩ := h attempt (Nat.le_refl _) (by omega)
    simp [retryAux, he]
  | succ m ih =>
    intro attempt h
    obtain ⟨e, he⟩ := h attempt (Nat.le_refl _) (by omega)
    simp only [retryAux, he, Nat.succ_ne_zero, if_neg, not_false_iff]
    have := ih (attempt + 1) (fun i h1 h2 => h i (by omega) (by omega))
    rw [show attempt + (m + 1) = attempt + 1 + m by omega]
    exact this

/-- C4 (amended): for every wrapped operation and every attempt budget
`n ≥ 1`, `_retry_operation` calls the operation at most `n` times and at
least once; if every attempt raises, the last failure is re-raised after
the `n`-th attempt.  (For `n = 0` the loop body never runs: the operation
is called zero times and `None` is returned instead of re-raising, see
the counterexample.) -/
theorem claim_C4_amended {α ε : Type} (n : Nat) (op : Nat → Except ε α)
    (h : 1 ≤ n) :
    1 ≤ (retry_operation n op).2 ∧ (retry_operation n op).2 ≤ n ∧
      ((∀ i, i < n → ∃ e, op i = Except.error e) →
        (retry_operation n op).1 = some (op (n - 1))) := by
  obtain ⟨m, rfl⟩ : ∃ m, n = m + 1 := ⟨n - 1, by omega⟩
  refine ⟨retryAux_calls_pos op m 0, retryAux_calls_le op (m + 1) 0, ?_⟩
  intro hall
  have := retryAux_all_error op m 0 (fun i h1 h2 => hall i (by omega))
  simpa using this

theorem claim_C4_witness :
    1 ≤ (retry_operation 3 (fun _ => (Except.error "boom" : Except String Nat))).2 ∧
      (retry_operation 3 (fun _ => (Except.error "boom" : Except String Nat))).2 ≤ 3 ∧
      (retry_operation 3 (fun _ => (Except.error "boom" : Except String Nat))).1 =
        some (Except.error "boom") := by
  have h := claim_C4_amended 3 (fun _ => (Except.error "boom" : Except String Nat))
    (by decide)
  exact ⟨h.1, h.2.1, h.2.2 (fun i _ => ⟨"boom", rfl⟩)⟩

/-- C4 counterexample: with an attempt budget of `0` the Python loop body
never runs, so the wrapped operation is called zero times — not "at least
once" — and `None` is returned instead of re-raising the last failure. -/
theorem claim_C4_counterexample :
    (retry_operation 0 (fun _ => (Except.error "boom" : Except String Nat))).2 = 0 ∧
      (retry_operation 0 (fun _ => (Except.error "boom" : Except String Nat))).1 = none := by
  exact ⟨rfl, rfl⟩

/-! ## Success normal forms of the smart-click strategy chain -/

lemma ocrTry_isSome (fl : Flags) (fr : Frame) :
    ∀ L : List String, (ocrTry fl fr L).1.isSome = L.any (ocrHit fl fr) := by
  intro L
  induction L with
  | nil => rfl
  | cons st rest ih =>
    simp only [ocrTry, click_coordinates, List.any_cons]
    cases hf : (find_text_on_screen fl fr st).1 with
    | some p =>
      cases hc : fr.clickAt p with
      | true => simp [ocrHit, hf, hc]
      | false => simp [ocrHit, hf, hc, ih]
    | none => simp [ocrHit, hf, ih]

lemma fallbackTry_isSome (fr : Frame) :
    ∀ fbs : List (Nat × Nat), (fallbackTry fr fbs).1.isSome = fbs.any fr.clickAt := by
  intro fbs
  induction fbs with
  | nil => rfl
  | cons p ps ih =>
    simp only [fallbackTry, click_coordinates, List.any_cons]
    cases hc : fr.clickAt p with
    | true => simp [hc]
    | false => simp [hc, ih]

lemma smart_isSome (fl : Flags) (fr : Frame) (elementType : String)
    (textOptions : List String) (fallbacks : List (Nat × Nat)) :
    (smart_find_and_click fl fr elementType textOptions fallbacks).1.isSome =
      (fl.dryRun ||
        fl.pyautogui && (textOptions.flatMap searchVariants).any (ocrHit fl fr) ||
        fallbacks.any fr.clickAt ||
        fl.pyautogui && (keyboardShortcut elementType).isSome) := by
  cases hd : fl.dryRun with
  | true => simp [smart_find_and_click, hd]
  | false =>
    cases hp : fl.pyautogui with
    | true =>
      cases ho : (ocrTry fl fr (textOptions.flatMap searchVariants)).1 with
      | some ps =>
        have h1 := ocrTry_isSome fl fr (textOptions.flatMap searchVariants)
        rw [ho] at h1
        simp [smart_find_and_click, hd, hp, ho, ← h1]
      | none =>
        have h1 := ocrTry_isSome fl fr (textOptions.flatMap searchVariants)
        rw [ho] at h1
        cases hb : (fallbackTry fr fallbacks).1 with
        | some p =>
          have h2 := fallbackTry_isSome fr fallbacks
          rw [hb] at h2
          simp [smart_find_and_click, hd, hp, ho, hb, ← h1, ← h2]
        | none =>
          have h2 := fallbackTry_isSome fr fallbacks
          rw [hb] at h2
          cases hk : keyboardShortcut elementType with
          | some k => simp [smart_find_and_click, hd, hp, ho, hb, hk, ← h1, ← h2]
          | none => simp [smart_find_and_click, hd, hp, ho, hb, hk, ← h1, ← h2]
    | false =>
      cases hb : (fallbackTry fr fallbacks).1 with
      | some p =>
        have h2 := fallbackTry_isSome fr fallbacks
        rw [hb] at h2
        simp [smart_find_and_click, hd, hp, hb, ← h2]
      | none =>
        have h2 := fallbackTry_isSome fr fallbacks
        rw [hb] at h2
        simp [smart_find_and_click, hd, hp, hb, ← h2]

/-- C2: outside dry-run, `smart_find_and_click` returns `False` if and
only if the OCR text strategy, every literal fallback coordinate, and the
keyboard-shortcut heuristic all fail; whenever any strategy or fallback
coordinate succeeds it does not return `False`. -/
theorem claim_C2 (fl : Flags) (fr : Frame) (elementType : String)
    (textOptions : List String) (fallbacks : List (Nat × Nat))
    (hd : fl.dryRun = false) :
    (smart_find_and_click fl fr elementType textOptions fallbacks).1 = none ↔
      ((fl.pyautogui = true →
          ∀ st ∈ textOptions.flatMap searchVariants, ocrHit fl fr st = false) ∧
        (∀ p ∈ fallbacks, fr.clickAt p = false) ∧
        (fl.pyautogui = true → keyboardShortcut elementType = none)) := by
  have hs := smart_isSome fl fr elementType textOptions fallbacks
  rw [hd, Bool.false_or] at hs
  constructor
  · intro h
    rw [h] at hs
    simp only [Option.isSome_none] at hs
    have hs2 := hs.symm
    rw [Bool.or_eq_false_iff, Bool.or_eq_false_iff] at hs2
    obtain ⟨⟨hA, hB⟩, hC⟩ := hs2
    refine ⟨?_, ?_, ?_⟩
    · intro hp st hst
      rw [hp, Bool.true_and] at hA
      have := List.any_eq_false.mp hA st hst
      simpa using this
    · intro p hp
      have := List.any_eq_false.mp hB p hp
      simpa using this
    · intro hp
      rw [hp, Bool.true_and] at hC
      cases hk : keyboardShortcut elementType with
      | none => rfl
      | some k => rw [hk] at hC; simp at hC
  · intro h
    obtain ⟨h1, h2, h3⟩ := h
    have hA : (fl.pyautogui &&
        (textOptions.flatMap searchVariants).any (ocrHit fl fr)) = false := by
      cases hp : fl.pyautogui with
      | false => rfl
      | true =>
        rw [Bool.true_and]
        exact List.any_eq_false.mpr (fun st hst => by simp [h1 hp st hst])
    have hB : fallbacks.any fr.clickAt = false :=
      List.any_eq_false.mpr (fun p hp => by simp [h2 p hp])
    have hC : (fl.pyautogui && (keyboardShortcut elementType).isSome) = false := by
      cases hp : fl.pyautogui with
      | false => rfl
      | true => rw [Bool.true_and, h3 hp]; rfl
    rw [hA, hB, hC] at hs
    cases hx : (smart_find_and_click fl fr elementType textOptions fallbacks).1 with
    | none => rfl
    | some o => rw [hx] at hs; simp at hs

theorem claim_C2_witness :
    (smart_find_and_click { pyautogui := true, dryRun := false, connected := false }
        emptyFrame "xyz" [] []).1 = none ↔
      (({ pyautogui := true, dryRun := false, connected := false } : Flags).pyautogui = true →
          ∀ st ∈ ([] : List String).flatMap searchVariants,
            ocrHit { pyautogui := true, dryRun := false, connected := false } emptyFrame st = false) ∧
        (∀ p ∈ ([] : List (Nat × Nat)), emptyFrame.clickAt p = false) ∧
        (({ pyautogui := true, dryRun := false, connected := false } : Flags).pyautogui = true →
          keyboardShortcut "xyz" = none) :=
  claim_C2 { pyautogui := true, dryRun := false, connected := false } emptyFrame "xyz" [] [] rfl

lemma buttonMatches_amp : buttonMatches "Next" = buttonMatches "&Next" := by
  funext c
  unfold buttonMatches
  rw [show cleanText "Next" = cleanText "&Next" from by decide]

/-- C5 (amended): matching is invariant under ampersand insertion/removal
as far as success is concerned — the win32gui path behaves identically
on `Next` and `&Next` (it strips `&` from both sides), and the OCR path
of `smart_find_and_click` succeeds on the one exactly when it succeeds
on the other (it searches both variants) — but the two queries may click
different screen positions when both variants are visible, because each
query tries its own spelling first (see the counterexample). -/
theorem claim_C5_amended :
    (∀ windows : List (List Win32Control),
      click_with_win32gui windows "Next" = click_with_win32gui windows "&Next") ∧
    (∀ (fl : Flags) (fr : Frame) (elementType : String) (fbs : List (Nat × Nat)),
      (smart_find_and_click fl fr elementType ["Next"] fbs).1.isSome =
        (smart_find_and_click fl fr elementType ["&Next"] fbs).1.isSome) := by
  constructor
  · intro windows
    simp [click_with_win32gui, buttonMatches_amp]
  · intro fl fr elementType fbs
    rw [smart_isSome, smart_isSome]
    rw [show (["Next"] : List String).flatMap searchVariants = ["Next", "&Next"] from by decide]
    rw [show (["&Next"] : List String).flatMap searchVariants = ["&Next", "Next"] from by decide]
    simp only [List.any_cons, List.any_nil, Bool.or_false]
    rw [Bool.or_comm (ocrHit fl fr "Next") (ocrHit fl fr "&Next")]

/-- C5 counterexample: against `ampFrame` the query `Next` clicks the
`Next` box at `(10, 10)` while the query `&Next` clicks the `&Next` box
at `(110, 10)` — both succeed, but they do not yield the same match. -/
theorem claim_C5_counterexample :
    (smart_find_and_click { pyautogui := true, dryRun := false, connected := false }
        ampFrame "Next button" ["Next"] []).1 = some (Outcome.ocr "Next" (10, 10)) ∧
    (smart_find_and_click { pyautogui := true, dryRun := false, connected := false }
        ampFrame "Next button" ["&Next"] []).1 = some (Outcome.ocr "&Next" (110, 10)) ∧
    ((10, 10) : Nat × Nat) ≠ (110, 10) := by
  refine ⟨by decide, by decide, by decide⟩

/-- C1 (amended): outside dry-run, whenever some strategy in the order
native-handle enumeration → OCR text search → literal fallback
coordinates → keyboard shortcut is capable of satisfying the query, the
step-level resolution returns the result of the first capable strategy
in that order; colour/contour shape detection is defined in the source
but never consulted by the resolution chain (see the counterexample). -/
theorem claim_C1_amended (fl : Flags) (fr : Frame) (q elementType : String)
    (textOptions : List String) (fallbacks : List (Nat × Nat))
    (hd : fl.dryRun = false)
    (hcap : (codeOrder.find?
      (strategyCapable fl fr q elementType textOptions fallbacks)).isSome = true) :
    ∃ o s, (resolveClick fl fr q elementType textOptions fallbacks).1 = some o ∧
      codeOrder.find? (strategyCapable fl fr q elementType textOptions fallbacks)
        = some s ∧
      outcomeStrategy o = some s := by
  cases hw : (click_with_win32gui fr.windows q).1 with
  | some c =>
    have hn : strategyCapable fl fr q elementType textOptions fallbacks
        Strategy.native = true := by simp [strategyCapable, hw]
    refine ⟨Outcome.native c, Strategy.native, ?_, ?_, rfl⟩
    · simp [resolveClick, hw]
    · simp [codeOrder, List.find?, hn]
  | none =>
    have hn : strategyCapable fl fr q elementType textOptions fallbacks
        Strategy.native = false := by simp [strategyCapable, hw]
    cases hp : fl.pyautogui with
    | true =>
      cases ho : (ocrTry fl fr (textOptions.flatMap searchVariants)).1 with
      | some ps =>
        have h1 : (textOptions.flatMap searchVariants).any (ocrHit fl fr) = true := by
          rw [← ocrTry_isSome fl fr (textOptions.flatMap searchVariants), ho]
          rfl
        have hocr : strategyCapable fl fr q elementType textOptions fallbacks
            Strategy.ocr = true := by simp [strategyCapable, hp, h1]
        refine ⟨Outcome.ocr ps.2 ps.1, Strategy.ocr, ?_, ?_, rfl⟩
        · simp [resolveClick, hw, smart_find_and_click, hd, hp, ho]
        · simp [codeOrder, List.find?, hn, hocr]
      | none =>
        have h1 : (textOptions.flatMap searchVariants).any (ocrHit fl fr) = false := by
          rw [← ocrTry_isSome fl fr (textOptions.flatMap searchVariants), ho]
          rfl
        have hocr : strategyCapable fl fr q elementType textOptions fallbacks
            Strategy.ocr = false := by simp [strategyCapable, h1]
        cases hb : (fallbackTry fr fallbacks).1 with
        | some p =>
          have h2 : fallbacks.any fr.clickAt = true := by
            rw [← fallbackTry_isSome fr fallbacks, hb]; rfl
          have hfb : strategyCapable fl fr q elementType textOptions fallbacks
              Strategy.fallbackCoord = true := by simp [strategyCapable, h2]
          refine ⟨Outcome.fallback p, Strategy.fallbackCoord, ?_, ?_, rfl⟩
          · simp [resolveClick, hw, smart_find_and_click, hd, hp, ho, hb]
          · simp [codeOrder, List.find?, hn, hocr, hfb]
        | none =>
          have h2 : fallbacks.any fr.clickAt = false := by
            rw [← fallbackTry_isSome fr fallbacks, hb]; rfl
          have hfb : strategyCapable fl fr q elementType textOptions fallbacks
              Strategy.fallbackCoord = false := by simp [strategyCapable, h2]
          cases hk : keyboardShortcut elementType with
          | some k =>
            have hkb : strategyCapable fl fr q elementType textOptions fallbacks
                Strategy.keyboard = true := by simp [strategyCapable, hp, hk]
            refine ⟨Outcome.keyboard k, Strategy.keyboard, ?_, ?_, rfl⟩
            · simp [resolveClick, hw, smart_find_and_click, hd, hp, ho, hb, hk]
            · simp [codeOrder, List.find?, hn, hocr, hfb, hkb]
          | none =>
            exfalso
            have hkb : strategyCapable fl fr q elementType textOptions fallbacks
                Strategy.keyboard = false := by simp [strategyCapable, hk]
            simp [codeOrder, List.find?, hn, hocr, hfb, hkb] at hcap
    | false =>
      have hocr : strategyCapable fl fr q elementType textOptions fallbacks
          Strategy.ocr = false := by simp [strategyCapable, hp]
      have hkb : strategyCapable fl fr q elementType textOptions fallbacks
          Strategy.keyboard = false := by simp [strategyCapable, hp]
      cases hb : (fallbackTry fr fallbacks).1 with
      | some p =>
        have h2 : fallbacks.any fr.clickAt = true := by
          rw [← fallbackTry_isSome fr fallbacks, hb]; rfl
        have hfb : strategyCapable fl fr q elementType textOptions fallbacks
            Strategy.fallbackCoord = true := by simp [strategyCapable, h2]
        refine ⟨Outcome.fallback p, Strategy.fallbackCoord, ?_, ?_, rfl⟩
        · simp [resolveClick, hw, smart_find_and_click, hd, hp, hb]
        · simp [codeOrder, List.find?, hn, hocr, hfb]
      | none =>
        exfalso
        have h2 : fallbacks.any fr.clickAt = false := by
          rw [← fallbackTry_isSome fr fallbacks, hb]; rfl
        have hfb : strategyCapable fl fr q elementType textOptions fallbacks
            Strategy.fallbackCoord = false := by simp [strategyCapable, h2]
        simp [codeOrder, List.find?, hn, hocr, hfb, hkb] at hcap

/-- C1 counterexample: against `colorOnlyFrame` the first capable
strategy in the order claimed by the specification (native → OCR →
colour/contour → keyboard) is colour/contour detection, yet the
resolution answers with the keyboard-shortcut heuristic — the colour
strategy is never consulted. -/
theorem claim_C1_counterexample :
    claimOrder.find? (strategyCapable
        { pyautogui := true, dryRun := false, connected := false }
        colorOnlyFrame "Next" "Next button (welcome screen)" ["Next"] [])
      = some Strategy.color ∧
    (resolveClick { pyautogui := true, dryRun := false, connected := false }
        colorOnlyFrame "Next" "Next button (welcome screen)" ["Next"] []).1
      = some (Outcome.keyboard "alt+n") ∧
    outcomeStrategy (Outcome.keyboard "alt+n") ≠ some Strategy.color := by
  refine ⟨by decide, by decide, by decide⟩

theorem claim_C1_witness :
    ∃ o s, (resolveClick { pyautogui := true, dryRun := false, connected := false }
        nativeFrame "Next" "Next button (welcome screen)" ["Next"] []).1 = some o ∧
      codeOrder.find? (strategyCapable
        { pyautogui := true, dryRun := false, connected := false }
        nativeFrame "Next" "Next button (welcome screen)" ["Next"] []) = some s ∧
      outcomeStrategy o = some s :=
  claim_C1_amended _ _ _ _ _ _ rfl (by decide)

/-! ## Lemmas about the completion poll -/

lemma click_with_win32gui_events (ws : List (List Win32Control)) (q : String) :
    ∀ e ∈ (click_with_win32gui ws q).2,
      e = Event.windowEnum ∨ ∃ d, e = Event.postClick d := by
  intro e he
  simp only [click_with_win32gui, List.mem_cons] at he
  rcases he with h | h
  · exact Or.inl h
  · exact Or.inr (win32ClickSearch_events _ e h)

lemma completionPoll_events (pyauto : Bool) (frames : Nat → List (List Win32Control)) :
    ∀ (fuel i : Nat), ∀ e ∈ (completionPoll pyauto frames i fuel).2,
      e = Event.screenshotProbe ∨ e = Event.windowEnum ∨ ∃ d, e = Event.postClick d := by
  intro fuel
  induction fuel with
  | zero => intro i e he; simp [completionPoll] at he
  | succ m ih =>
    intro i e he
    simp only [completionPoll] at he
    have hshot : ∀ x ∈ (if pyauto then [Event.screenshotProbe] else ([] : Trace)),
        x = Event.screenshotProbe := by
      cases pyauto <;> simp
    cases hf : (click_with_win32gui (frames i) "Finish").1 with
    | some c =>
      rw [hf] at he
      simp only [List.mem_append] at he
      rcases he with h | h
      · exact Or.inl (hshot e h)
      · rcases click_with_win32gui_events _ _ e h with h1 | h1
        · exact Or.inr (Or.inl h1)
        · exact Or.inr (Or.inr h1)
    | none =>
      rw [hf] at he
      cases hc : (click_with_win32gui (frames i) "Close").1 with
      | some c =>
        rw [hc] at he
        simp only [List.mem_append] at he
        rcases he with (h | h) | h
        · exact Or.inl (hshot e h)
        · rcases click_with_win32gui_events _ _ e h with h1 | h1
          · exact Or.inr (Or.inl h1)
          · exact Or.inr (Or.inr h1)
        · rcases click_with_win32gui_events _ _ e h with h1 | h1
          · exact Or.inr (Or.inl h1)
          · exact Or.inr (Or.inr h1)
      | none =>
        rw [hc] at he
        simp only [List.mem_append] at he
        rcases he with ((h | h) | h) | h
        · exact Or.inl (hshot e h)
        · rcases click_with_win32gui_events _ _ e h with h1 | h1
          · exact Or.inr (Or.inl h1)
          · exact Or.inr (Or.inr h1)
        · rcases click_with_win32gui_events _ _ e h with h1 | h1
          · exact Or.inr (Or.inl h1)
          · exact Or.inr (Or.inr h1)
        · exact ih (i + 1) e h

lemma completionPoll_none (pyauto : Bool) (frames : Nat → List (List Win32Control)) :
    ∀ (fuel i : Nat),
      (∀ j, i ≤ j → j < i + fuel →
        (click_with_win32gui (frames j) "Finish").1 = none ∧
        (click_with_win32gui (frames j) "Close").1 = none) →
      (completionPoll pyauto frames i fuel).1 = none := by
  intro fuel
  induction fuel with
  | zero => intro i _; rfl
  | succ m ih =>
    intro i h
    obtain ⟨hf, hc⟩ := h i (Nat.le_refl _) (by omega)
    simp only [completionPoll, hf, hc]
    exact ih (i + 1) (fun j h1 h2 => h j (by omega) (by omega))

/-- C3 (amended): in every `wait_for_completion` run with pyautogui
available in which neither a Finish nor a Close control ever resolves
within the poll budget, the step performs exactly one Alt+F keyboard
fallback at budget exhaustion and returns soft success.  (Without
pyautogui the step instead fails with no keyboard attempt, see the
counterexample.) -/
theorem claim_C3_amended (frames : Nat → List (List Win32Control)) (budget : Nat)
    (con : Bool)
    (h : ∀ i, i < budget →
      (click_with_win32gui (frames i) "Finish").1 = none ∧
      (click_with_win32gui (frames i) "Close").1 = none) :
    (wait_for_completion { pyautogui := true, dryRun := false, connected := con }
      frames budget).1 = true ∧
    (wait_for_completion { pyautogui := true, dryRun := false, connected := con }
      frames budget).2.count (Event.hotkey "alt+f") = 1 := by
  have hnone := completionPoll_none true frames budget 0
    (fun j _ hj => h j (by omega))
  have hcount : (completionPoll true frames 0 budget).2.count (Event.hotkey "alt+f") = 0 := by
    rw [List.count_eq_zero]
    intro hmem
    rcases completionPoll_events true frames budget 0 (Event.hotkey "alt+f") hmem with
      h1 | h1 | ⟨d, h1⟩ <;> simp at h1
  constructor
  · simp [wait_for_completion, hnone]
  · simp [wait_for_completion, hnone, List.count_append, hcount]

/-- C3 counterexample: when pyautogui is unavailable and Finish/Close
never resolve, `wait_for_completion` returns `False` with zero keyboard
fallback attempts, not a soft success after one attempt. -/
theorem claim_C3_counterexample :
    (wait_for_completion { pyautogui := false, dryRun := false, connected := false }
      (fun _ => []) 1).1 = false ∧
    (wait_for_completion { pyautogui := false, dryRun := false, connected := false }
      (fun _ => []) 1).2.count (Event.hotkey "alt+f") = 0 := by
  refine ⟨by decide, by decide⟩

theorem claim_C3_witness :
    (wait_for_completion { pyautogui := true, dryRun := false, connected := false }
      (fun _ => []) 1).1 = true ∧
    (wait_for_completion { pyautogui := true, dryRun := false, connected := false }
      (fun _ => []) 1).2.count (Event.hotkey "alt+f") = 1 :=
  claim_C3_amended (fun _ => []) 1 false (by decide)

/-! ## Lemmas about actuation traces -/

lemma filter_take_screenshot (fl : Flags) :
    (take_screenshot fl).filter isActuation = [] := by
  cases h : (fl.pyautogui && !fl.dryRun) <;> simp [take_screenshot, h, isActuation]

lemma filter_print_window_text (fl : Flags) :
    (print_window_text fl).filter isActuation = [] := by
  cases hc : fl.connected <;> cases hp : fl.pyautogui <;>
    simp [print_window_text, hc, hp, isActuation]

lemma fill_trace_of_success {ws : List (List Win32Control)} {label value : String}
    (h : (fill_field_with_win32gui ws label value).1 = true) :
    (fill_field_with_win32gui ws label value).2 =
      [Event.windowEnum, Event.fillField (fieldIndex label) value] := by
  simp only [fill_field_with_win32gui] at h ⊢
  obtain ⟨c, hc⟩ := Option.isSome_iff_exists.mp h
  rw [fillSearch_trace ws c hc]

lemma acts_click_postClick (ws : List (List Win32Control)) (q : String) :
    ∀ e ∈ acts (click_with_win32gui ws q).2, ∃ d, e = Event.postClick d := by
  intro e he
  simp only [acts, List.mem_filter] at he
  rcases click_with_win32gui_events ws q e he.1 with h | h
  · rw [h] at he
    simp [isActuation] at he
  · exact h

/-- C6: in every Activation step run that goes through the
positionally-discovered win32gui input handles (all three fills succeed
and the Next click resolves natively), the three configuration fields
are filled in the fixed order server (edit-control position 0), tag
(position 1), license key (position 2), and the Next control is
activated only after all three fill attempts. -/
theorem claim_C6 (fl : Flags) (fr : Frame) (cfg : InstallationConfig)
    (hd : fl.dryRun = false)
    (h1 : (fill_field_with_win32gui fr.windows "server" cfg.server_address).1 = true)
    (h2 : (fill_field_with_win32gui fr.windows "tag" cfg.tag).1 = true)
    (h3 : (fill_field_with_win32gui fr.windows "license" cfg.license_key).1 = true)
    (h4 : (click_with_win32gui fr.windows "Next").1.isSome = true) :
    (handle_activation_information fl fr cfg).1 = true ∧
    acts (handle_activation_information fl fr cfg).2 =
      [Event.fillField 0 cfg.server_address, Event.fillField 1 cfg.tag,
        Event.fillField 2 cfg.license_key] ++
        acts (click_with_win32gui fr.windows "Next").2 ∧
    (∀ e ∈ acts (click_with_win32gui fr.windows "Next").2,
      ∃ d, e = Event.postClick d) := by
  have e1 := fill_trace_of_success h1
  have e2 := fill_trace_of_success h2
  have e3 := fill_trace_of_success h3
  rw [show fieldIndex "server" = 0 from by decide] at e1
  rw [show fieldIndex "tag" = 1 from by decide] at e2
  rw [show fieldIndex "license" = 2 from by decide] at e3
  refine ⟨?_, ?_, acts_click_postClick fr.windows "Next"⟩
  · simp [handle_activation_information, hd, h1, h2, h3, h4]
  · simp [handle_activation_information, hd, h1, h2, h3, h4, e1, e2, e3, acts,
      List.filter_append, filter_take_screenshot, filter_print_window_text,
      isActuation]

theorem claim_C6_witness :
    (handle_activation_information { pyautogui := true, dryRun := false, connected := false }
      activationFrame defaultConfig).1 = true ∧
    acts (handle_activation_information { pyautogui := true, dryRun := false, connected := false }
      activationFrame defaultConfig).2 =
      [Event.fillField 0 defaultConfig.server_address, Event.fillField 1 defaultConfig.tag,
        Event.fillField 2 defaultConfig.license_key] ++
        acts (click_with_win32gui activationFrame.windows "Next").2 := by
  have h := claim_C6 { pyautogui := true, dryRun := false, connected := false }
    activationFrame defaultConfig rfl (by decide) (by decide) (by decide) (by decide)
  exact ⟨h.1, h.2.1⟩

/-! ## Run-level lemmas -/

lemma run_installation_fst (env : RunEnv) :
    (run_installation env).1 =
      (validate_prerequisites env.pywinauto env.msiExists env.cfg &&
        (launch_installer env.fl env.launchOk).1 &&
        (handle_welcome_screen env.fl env.welcome).1 &&
        (handle_license_agreement env.fl env.license).1 &&
        (handle_activation_information env.fl env.activation env.cfg).1 &&
        (handle_installation env.fl env.install).1 &&
        (wait_for_completion env.fl env.completionFrames env.completionBudget).1) := by
  unfold run_installation
  cases hv : validate_prerequisites env.pywinauto env.msiExists env.cfg
  · simp [hv]
  · cases h1 : (launch_installer env.fl env.launchOk).1
    · simp [hv, h1]
    · cases h2 : (handle_welcome_screen env.fl env.welcome).1
      · simp [hv, h1, h2]
      · cases h3 : (handle_license_agreement env.fl env.license).1
        · simp [hv, h1, h2, h3]
        · cases h4 : (handle_activation_information env.fl env.activation env.cfg).1
          · simp [hv, h1, h2, h3, h4]
          · cases h5 : (handle_installation env.fl env.install).1
            · simp [hv, h1, h2, h3, h4, h5]
            · cases h6 : (wait_for_completion env.fl env.completionFrames
                env.completionBudget).1
              · simp [hv, h1, h2, h3, h4, h5, h6]
              · simp [hv, h1, h2, h3, h4, h5, h6]

/-- C7: the verification step is advisory only — `verify_installation`
returns `True` for every outcome of the post-install process check, and
the overall result of `run_installation` never depends on the
verification outcome. -/
theorem claim_C7 :
    (∀ (d : Bool) (o : VerifyOutcome), (verify_installation d o).1 = true) ∧
    (∀ (env : RunEnv) (o : VerifyOutcome),
      (run_installation { env with verify := o }).1 = (run_installation env).1) := by
  constructor
  · intro d o
    cases d <;> cases o <;> rfl
  · intro env o
    rw [run_installation_fst, run_installation_fst]

/-- C8 (amended): in dry-run mode no probe or actuation event ever
occurs, and — provided the prerequisite validation passes (pywinauto
importable, MSI file present, tag well-formed) — `run_installation`
completes all steps and returns `True`.  (When validation fails the dry
run returns `False`, see the counterexample.) -/
theorem claim_C8_amended (env : RunEnv) (hd : env.fl.dryRun = true) :
    (run_installation env).2 = [] ∧
    (validate_prerequisites env.pywinauto env.msiExists env.cfg = true →
      run_installation env = (true, [])) := by
  have hl : launch_installer env.fl env.launchOk = (true, []) := by
    simp [launch_installer, hd]
  have hw : handle_welcome_screen env.fl env.welcome = (true, []) := by
    simp [handle_welcome_screen, hd]
  have hlic : handle_license_agreement env.fl env.license = (true, []) := by
    simp [handle_license_agreement, hd]
  have hact : handle_activation_information env.fl env.activation env.cfg = (true, []) := by
    simp [handle_activation_information, hd]
  have hins : handle_installation env.fl env.install = (true, []) := by
    simp [handle_installation, hd]
  have hwait : wait_for_completion env.fl env.completionFrames env.completionBudget
      = (true, []) := by
    simp [wait_for_completion, hd]
  have hver : verify_installation env.fl.dryRun env.verify = (true, []) := by
    simp [verify_installation, hd]
  cases hv : validate_prerequisites env.pywinauto env.msiExists env.cfg
  · refine ⟨by simp [run_installation, hv], fun h => absurd h (by simp [hv])⟩
  · have hrun : run_installation env = (true, []) := by
      simp [run_installation, hv, hl, hw, hlic, hact, hins, hwait, hver]
    exact ⟨by rw [hrun], fun _ => hrun⟩

/-- C8 counterexample: a dry run with the MSI file missing returns
`False` (prerequisite validation still runs in dry-run mode), so a
dry-run invocation does not always complete the sequence with `True`. -/
theorem claim_C8_counterexample :
    dryEnvNoMsi.fl.dryRun = true ∧ (run_installation dryEnvNoMsi).1 = false := by
  refine ⟨rfl, by decide⟩

theorem claim_C8_witness :
    (run_installation dryEnvOk).2 = [] ∧ run_installation dryEnvOk = (true, []) := by
  have h := claim_C8_amended dryEnvOk rfl
  exact ⟨h.1, h.2 (by decide)⟩
